import Mathlib

/-!
# Verification of the explainability service (`src/explainability.py`)

Shallow embedding of the Flask explainability endpoints for the absenteeism
prediction model: background-data generation, the global-explanation cache,
and the `/explain/global`, `/explain/local`, `/explain/lime`, `/explain/cf`
handlers.

Modelling conventions:
* Machine floats are embedded as rationals (`ℚ`); arithmetic is exact, so
  "within floating tolerance" claims become exact equalities.
* External collaborators (the fitted model's `predict`, the scaler's
  `transform`, the preprocessor, the SHAP/LIME library calls) are fields of a
  context structure `Ctx`: the Python code treats them as black boxes and so
  do we.
* Randomness (`np.random.uniform` / `np.random.choice`) is abstracted as an
  explicit draw function `DrawF` supplied per background generation; the
  per-sample raw dict built in `generate_background_data` is assembled from
  those draws by `build_sample`.
* Python exceptions caught by the endpoint `try`/`except` boundaries are
  embedded as `Except HttpError` results; functions whose failures are
  swallowed return `Option`.
* `np.sqrt` (inside `np.std` and `np.linalg.norm`) is embedded by `ratSqrt`,
  which is exact on squares of rationals — the only case any verified claim
  depends on.
* Wall-clock time is an integer number of seconds; `datetime.fromisoformat`
  results are embedded by the `TsField` type (absent / unparsable / parsed).
-/

namespace Explainability

/-- A raw JSON request input: a dict of feature name to numeric value. -/
def RawInput : Type := List (String × ℚ)

/-- The random draws feeding one call of `generate_background_data`:
for sample index `i` and feature name `f`, `draw i f` is the value produced by
`np.random.uniform` / `np.random.choice` for that feature in that sample. -/
def DrawF : Type := ℕ → String → ℚ

/-- A SHAP explainer object, reduced to its `shap_values` capability on a
single row and on a matrix (the library computation is external). -/
structure ShapEx where
  row : List ℚ → List ℚ
  mat : List (List ℚ) → List (List ℚ)

/-- The process-wide context: the lazily imported model components
(`get_model_components`), the import-time capability flags
(`SHAP_AVAILABLE`, `LIME_AVAILABLE`), and the external library behaviours. -/
structure Ctx where
  /-- `model.predict` on a single feature row (`model.predict(m)[0]`). -/
  model : Option (List ℚ → ℚ)
  /-- `scaler.transform` on a matrix. -/
  scaler : Option (List (List ℚ) → List (List ℚ))
  /-- `feature_columns`, the ordered feature schema. -/
  feature_columns : Option (List String)
  /-- `preprocess_input`: raw dict → numeric row aligned to the schema. -/
  preprocess : RawInput → List ℚ
  /-- `SHAP_AVAILABLE` import-time flag. -/
  shap_available : Bool
  /-- `LIME_AVAILABLE` import-time flag. -/
  lime_available : Bool
  /-- whether `hasattr(model, 'coef_')` holds. -/
  has_coef : Bool
  /-- whether `shap.LinearExplainer(model, background)` constructs without
  raising. -/
  linear_explainer_ok : Bool
  /-- the constructed explainer's `shap_values` behaviour. -/
  shapEx : ShapEx
  /-- `lime` explainer behaviour: background and instance row to
  (`explanation.as_list()`, `explanation.score`); identifiers returned by
  `as_list` are strings (the library may return positional indices rendered
  as strings or resolved names). -/
  limeExplain : List (List ℚ) → List ℚ → List (String × ℚ) × ℚ
  /-- whether writing the cache file succeeds (`save` failures are ignored). -/
  save_ok : Bool

/-! ## Exact square-root model

`np.std` and `np.linalg.norm` take real square roots.  `ratSqrt` embeds that
square root into `ℚ`: it is exact whenever the argument is the square of a
rational, which is the only case reached by the properties proved below
(the norm of a single-feature change vector). -/

/-- Rational square root: exact on squares of rationals. -/
def ratSqrt (x : ℚ) : ℚ := (Nat.sqrt x.num.toNat : ℚ) / (Nat.sqrt x.den : ℚ)

/-- Sum of squares of a vector. -/
def sumSq (v : List ℚ) : ℚ := (v.map fun x => x * x).sum

/-- `np.linalg.norm`: Euclidean norm of a vector (exact when the sum of
squares is a rational square). -/
def l2norm (v : List ℚ) : ℚ := ratSqrt (sumSq v)

/-! ## Cache model (`load_cached_global_explanation` / `save_cached_global_explanation`)

The cache file holds `{'timestamp': iso-string, 'explanation': payload}`.
`CacheState` is `none` when the file does not exist, `some none` when it
exists but `json.load` raises (corrupt file), and `some (some j)` when it
parses to `j`. -/

/-- One entry of the global-explanation `feature_importance` list. -/
structure FIItem where
  feature : String
  mean_abs_shap : ℚ
deriving DecidableEq, Repr

/-- The global-explanation payload (`explanation` dict in `explain_global`). -/
structure GlobalPayload where
  feature_importance : List FIItem
  explainer_type : String
  sample_size : ℕ
  cached : Bool
deriving DecidableEq, Repr

/-- The `timestamp` field of the cache JSON as seen through
`cache_data.get('timestamp', '2000-01-01')` followed by
`datetime.fromisoformat`:
the field may be absent (the default string is used), present but not an
ISO-8601 date (`fromisoformat` raises), or parsed to a time `t`. -/
inductive TsField where
  | absent : TsField
  | unparsable : TsField
  | parsed : ℤ → TsField
deriving DecidableEq, Repr

/-- A parsed cache file. -/
structure CacheJson where
  ts : TsField
  explanation : Option GlobalPayload
deriving DecidableEq, Repr

/-- The cache file's state: missing / corrupt / parsed. -/
abbrev CacheState : Type := Option (Option CacheJson)

/-- `CACHE_TTL_DAYS = 7`, in seconds. -/
def cache_ttl : ℤ := 7 * 86400

/-- The epoch value of the default timestamp string `'2000-01-01'`. -/
def default_timestamp : ℤ := 946684800

/-- The time `datetime.fromisoformat(cache_data.get('timestamp', '2000-01-01'))`
evaluates to, `none` when it raises. -/
def TsField.effective : TsField → Option ℤ
  | .absent => some default_timestamp
  | .unparsable => none
  | .parsed t => some t

/-- `load_cached_global_explanation`: returns the cached explanation if the
file exists, parses, and its timestamp is within the TTL; every failure
(missing file, corrupt file, unparsable timestamp, expired entry) yields
`none`, the exceptions being swallowed by the `try`/`except`. -/
def load_cached_global_explanation (cache : CacheState) (now : ℤ) :
    Option GlobalPayload :=
  match cache with
  | none => none
  | some none => none
  | some (some j) =>
    match j.ts.effective with
    | none => none
    | some cache_time =>
      if cache_ttl < now - cache_time then none
      else j.explanation

/-- `save_cached_global_explanation`: writes
`{'timestamp': now, 'explanation': explanation}`; on failure the file is left
unchanged and the error is swallowed. -/
def save_cached_global_explanation (cache : CacheState) (now : ℤ)
    (explanation : GlobalPayload) (save_ok : Bool) : CacheState :=
  if save_ok then some (some ⟨.parsed now, some explanation⟩) else cache

/-! ## Background generation (`generate_background_data`) -/

/-- The hardcoded numeric feature ranges of `generate_background_data`. -/
def numeric_features : List (String × ℚ × ℚ) :=
  [("Age", 25, 60), ("Service time", 1, 20),
   ("Work load Average/day ", 200, 350), ("Transportation expense", 100, 400),
   ("Distance from Residence to Work", 1, 50)]

/-- The hardcoded categorical feature value sets of
`generate_background_data`. -/
def categorical_defaults : List (String × List ℚ) :=
  [("Education", [1, 2, 3]), ("Son", [0, 1, 2, 3]),
   ("Month of absence", [1, 2, 3, 4, 5, 6, 7, 8, 9, 10, 11, 12]),
   ("Day of the week", [2, 3, 4, 5, 6]), ("Seasons", [1, 2, 3, 4]),
   ("Hit target", [0, 1]), ("Disciplinary failure", [0, 1]),
   ("Social drinker", [0, 1]), ("Social smoker", [0, 1]), ("Pet", [0, 1]),
   ("Reason for absence", [0, 5, 10, 15, 20, 25])]

/-- One synthetic raw sample of the loop body of `generate_background_data`:
each known numeric / categorical feature present in the schema receives its
drawn value `u f` (the draw abstracts `np.random.uniform(min,max)` resp.
`np.random.choice(values)`); other features are left absent. -/
def build_sample (cols : List String) (u : String → ℚ) : RawInput :=
  (numeric_features.filterMap fun p =>
    if cols.contains p.1 then some (p.1, u p.1) else none)
    ++ (categorical_defaults.filterMap fun p =>
      if cols.contains p.1 then some (p.1, u p.1) else none)

/-- The keys of the `synthetic_data` dict (lines 52–85): the hard-coded
("known") features present in the schema.  The DataFrame built from that
dict has a first row exactly when this list is non-empty and
`n_samples ≥ 1`. -/
def known_features (cols : List String) : List String :=
  (numeric_features.map Prod.fst ++ categorical_defaults.map Prod.fst).filter
    cols.contains

/-- The message of the `IndexError` that `df.iloc[0]` raises on a zero-row
DataFrame (line 91), as rendered by `str(e)` in the endpoint handlers. -/
def iloc_oob_msg : String := "single positional indexer is out-of-bounds"

/-- `generate_background_data(n_samples)`: `None` (`.ok none`) when the
schema is missing or empty.  Otherwise line 91 evaluates
`preprocess_input(df.iloc[0].to_dict())` — its value is discarded, but
`df.iloc[0]` raises `IndexError` when the DataFrame has no rows, i.e. when
no known feature is present in the schema or `n_samples = 0`; the exception
propagates (`.error`).  Otherwise each of the `n_samples` synthetic raw
rows is preprocessed and the stacked matrix is passed through the scaler —
or returned unscaled when the scaler is `None`. -/
def generate_background_data (ctx : Ctx) (draw : DrawF) (n_samples : ℕ) :
    Except String (Option (List (List ℚ))) :=
  match ctx.feature_columns with
  | none => .ok none
  | some cols =>
    if cols.length = 0 then .ok none
    else if known_features cols = [] ∨ n_samples = 0 then .error iloc_oob_msg
    else
      let background_samples :=
        (List.range n_samples).map fun i =>
          ctx.preprocess (build_sample cols (draw i))
      match ctx.scaler with
      | some scalerF => .ok (some (scalerF background_samples))
      | none => .ok (some background_samples)

/-! ## SHAP explainer construction (`get_shap_explainer`) -/

/-- `get_shap_explainer`: `None` unless SHAP is available, model and scaler
are loaded, the model exposes `coef_`, a background can be generated, and
`shap.LinearExplainer` constructs without raising.  An exception from
`generate_background_data` propagates (there is no `try` around it — only
around the `LinearExplainer` construction). -/
def get_shap_explainer (ctx : Ctx) (draw : DrawF) :
    Except String (Option ShapEx) :=
  if ctx.shap_available = false then .ok none
  else
    match ctx.model, ctx.scaler with
    | some _, some _ =>
      if ctx.has_coef then
        match generate_background_data ctx draw 100 with
        | .error e => .error e
        | .ok (some _) =>
          if ctx.linear_explainer_ok then .ok (some ctx.shapEx) else .ok none
        | .ok none => .ok none
      else .ok none
    | _, _ => .ok none

/-! ## HTTP response embedding -/

/-- An error response: HTTP status code plus the `error` string of the JSON
body. -/
structure HttpError where
  status : ℕ
  error : String
deriving DecidableEq, Repr

/-- The exact error body produced on a missing `input` field. -/
def missing_input_msg : String := "Missing \"input\" field in request"

/-! ## Global explanation (`explain_global`) -/

/-- Column `i` of `np.mean(np.abs(shap_values), axis=0)`: the mean of the
absolute values down column `i` of the SHAP matrix. -/
def colMeanAbs (m : List (List ℚ)) (i : ℕ) : ℚ :=
  ((m.map fun r => |r.getD i 0|).sum) / (m.length : ℚ)

/-- The comparison of
`feature_importance.sort(key=lambda x: x['mean_abs_shap'], reverse=True)`:
stable descending order on `mean_abs_shap`. -/
def fi_le (a b : FIItem) : Bool := decide (b.mean_abs_shap ≤ a.mean_abs_shap)

/-- `explain_global` (`GET /explain/global`): cache hit returns the cached
payload re-tagged `cached=true`; on a miss the SHAP pipeline runs and the
result is persisted (best effort) before returning.  The pair's second
component is the cache file state after the call.  `draw_ex` feeds the
background generated inside `get_shap_explainer`, `draw_bg` the background
the mean SHAP values are computed on. -/
def explain_global (ctx : Ctx) (draw_ex draw_bg : DrawF) (cache : CacheState)
    (now : ℤ) : Except HttpError GlobalPayload × CacheState :=
  match ctx.model, ctx.scaler, ctx.feature_columns with
  | some _, some _, some feature_columns =>
    match load_cached_global_explanation cache now with
    | some cached => (.ok { cached with cached := true }, cache)
    | none =>
      if ctx.shap_available = false then
        (.error ⟨500, "SHAP library not available"⟩, cache)
      else
        match get_shap_explainer ctx draw_ex with
        | .error e => (.error ⟨500, e⟩, cache)
        | .ok none => (.error ⟨500, "Failed to create SHAP explainer"⟩, cache)
        | .ok (some explainer) =>
          match generate_background_data ctx draw_bg 100 with
          | .error e => (.error ⟨500, e⟩, cache)
          | .ok none =>
            (.error ⟨500, "Failed to generate background data"⟩, cache)
          | .ok (some background) =>
            let shap_values := explainer.mat background
            let feature_importance :=
              (List.range feature_columns.length).map fun i =>
                FIItem.mk (feature_columns.getD i "") (colMeanAbs shap_values i)
            let feature_importance := feature_importance.mergeSort fi_le
            let explanation : GlobalPayload :=
              ⟨feature_importance, "LinearExplainer", background.length, false⟩
            (.ok explanation,
             save_cached_global_explanation cache now explanation ctx.save_ok)
  | _, _, _ => (.error ⟨500, "Model not loaded"⟩, cache)

/-! ## Local explanation (`explain_local`) -/

/-- One entry of the local `contributions` list. -/
structure Contribution where
  feature : String
  shap : ℚ
  value : ℚ
deriving DecidableEq, Repr

/-- The comparison of
`contributions.sort(key=lambda x: abs(x['shap']), reverse=True)`. -/
def contrib_le (a b : Contribution) : Bool := decide (|b.shap| ≤ |a.shap|)

/-- Python's `f"{x:.2f}"`, abstracted: the rational rounded to hundredths,
rendered by `ℚ`'s `toString` (the decimal spelling is irrelevant to every
property proved here). -/
def fmt2 (q : ℚ) : String := toString ((round (q * 100) : ℤ) : ℚ) ++ "e-2"

/-- The success payload of `POST /explain/local`. -/
structure LocalOk where
  prediction : ℚ
  contributions : List Contribution
  text_summary : String
deriving DecidableEq, Repr

/-- The single scaled row an input-taking endpoint computes:
`scaler.transform(preprocess_input(input_data))[0]`. -/
def scaledRow (ctx : Ctx) (scalerF : List (List ℚ) → List (List ℚ))
    (input_data : RawInput) : List ℚ :=
  (scalerF [ctx.preprocess input_data]).getD 0 []

/-- `explain_local` (`POST /explain/local`).  `body` is the parsed request
JSON's `input` field (`none` when the key is missing). -/
def explain_local (ctx : Ctx) (draw_ex : DrawF) (body : Option RawInput) :
    Except HttpError LocalOk :=
  match ctx.model, ctx.scaler, ctx.feature_columns with
  | some predict, some scalerF, some feature_columns =>
    match body with
    | none => .error ⟨400, missing_input_msg⟩
    | some input_data =>
      let scaled_data := scaledRow ctx scalerF input_data
      let prediction := predict scaled_data
      if ctx.shap_available = false then
        .error ⟨500, "SHAP library not available"⟩
      else
        match get_shap_explainer ctx draw_ex with
        | .error e => .error ⟨400, e⟩
        | .ok none => .error ⟨500, "Failed to create SHAP explainer"⟩
        | .ok (some explainer) =>
          let shap_values := explainer.row scaled_data
          let contributions :=
            (List.range feature_columns.length).map fun i =>
              Contribution.mk (feature_columns.getD i "")
                (shap_values.getD i 0) (scaled_data.getD i 0)
          let contributions := contributions.mergeSort contrib_le
          let top_features := contributions.take 3
          let summary_parts := top_features.map fun feat =>
            feat.feature
              ++ (if 0 < feat.shap then " increases" else " decreases")
              ++ " prediction by " ++ fmt2 |feat.shap| ++ " hours"
          let text_summary := "Predicted " ++ fmt2 prediction
            ++ " hours. Top factors: "
            ++ String.intercalate ", " summary_parts ++ "."
          .ok ⟨prediction, contributions, text_summary⟩
  | _, _, _ => .error ⟨500, "Model not loaded"⟩

/-! ## LIME explanation (`explain_lime`) -/

/-- One entry of the LIME `top_features` list. -/
structure LimeFeat where
  feature : String
  weight : ℚ
deriving DecidableEq, Repr

/-- The success payload of `POST /explain/lime`. -/
structure LimeOk where
  prediction : ℚ
  top_features : List LimeFeat
  explanation_score : ℚ
deriving DecidableEq, Repr

/-- The feature-identifier resolution loop of `explain_lime`: the first
column whose position (as a string) or name equals the returned identifier,
falling back to the identifier itself. -/
def resolveLimeFeature (feature_columns : List String) (fid : String) :
    String :=
  match feature_columns.enum.find? fun p =>
      toString p.1 == fid || p.2 == fid with
  | some p => p.2
  | none => fid

/-- `explain_lime` (`POST /explain/lime`).  Note the LIME-availability check
precedes the missing-`input` check. -/
def explain_lime (ctx : Ctx) (draw : DrawF) (body : Option RawInput) :
    Except HttpError LimeOk :=
  match ctx.model, ctx.scaler, ctx.feature_columns with
  | some predict, some scalerF, some feature_columns =>
    if ctx.lime_available = false then
      .error ⟨500, "LIME library not available"⟩
    else
      match body with
      | none => .error ⟨400, missing_input_msg⟩
      | some input_data =>
        let scaled_data := scaledRow ctx scalerF input_data
        let prediction := predict scaled_data
        match generate_background_data ctx draw 100 with
        | .error e => .error ⟨400, e⟩
        | .ok none => .error ⟨500, "Failed to generate background data"⟩
        | .ok (some background) =>
          let explained := ctx.limeExplain background scaled_data
          let top_features := explained.1.map fun p =>
            LimeFeat.mk (resolveLimeFeature feature_columns p.1) p.2
          .ok ⟨prediction, top_features, explained.2⟩
  | _, _, _ => .error ⟨500, "Model not loaded"⟩

/-! ## Counterfactual search (`explain_counterfactual`) -/

/-- The fixed actionable numeric features of `explain_counterfactual`. -/
def actionable_features : List String :=
  ["Age", "Service time", "Work load Average/day ",
   "Transportation expense", "Distance from Residence to Work"]

/-- The six standard-deviation multipliers tried per feature. -/
def delta_mults : List ℚ := [-1/2, -1, -2, 1/2, 1, 2]

/-- One counterfactual candidate as appended to `candidates`. -/
structure Candidate where
  feature : String
  original_value : ℚ
  suggested_value : ℚ
  change : ℚ
  new_prediction : ℚ
  reduction_percent : ℚ
  distance : ℚ
deriving DecidableEq, Repr

/-- The comparison of
`candidates.sort(key=lambda x: (-x['reduction_percent'], x['distance']))`:
ascending lexicographic order on the key tuple, i.e. `reduction_percent`
descending with ties broken by `distance` ascending. -/
def cf_le (a b : Candidate) : Bool :=
  decide (b.reduction_percent < a.reduction_percent)
    || (decide (a.reduction_percent = b.reduction_percent)
      && decide (a.distance ≤ b.distance))

/-- `feature_mapping`: each actionable feature present in the schema paired
with its (first) index there, in the order of `actionable_features`. -/
def feature_mapping (feature_columns : List String) : List (String × ℕ) :=
  actionable_features.filterMap fun feat =>
    if feature_columns.contains feat then
      some (feat, feature_columns.indexOf feat)
    else none

/-- `np.mean` of a list (the `ℚ` division by a zero length never occurs at
the call sites, which pass 100-row backgrounds). -/
def npMean (v : List ℚ) : ℚ := v.sum / (v.length : ℚ)

/-- `np.std` of a list: square root of the population variance. -/
def npStd (v : List ℚ) : ℚ :=
  ratSqrt (npMean (v.map fun x => (x - npMean v) * (x - npMean v)))

/-- The candidate-generation double loop of `explain_counterfactual`: for
each mapped actionable feature (skipped when its index falls outside the
scaled row), estimate mean and std of its background column, and for each
multiplier shift just that feature by `multiplier × std`; keep the candidate
only when the new prediction is strictly below the original. -/
def cf_candidates (predict : List ℚ → ℚ) (background : List (List ℚ))
    (scaled_row : List ℚ) (mapping : List (String × ℕ)) (original_pred : ℚ) :
    List Candidate :=
  mapping.flatMap fun fp =>
    if scaled_row.length ≤ fp.2 then []
    else
      let feat_values := background.map fun r => r.getD fp.2 0
      let feat_std := npStd feat_values
      let current_value := scaled_row.getD fp.2 0
      delta_mults.filterMap fun delta_mult =>
        let delta := delta_mult * feat_std
        let new_value := current_value + delta
        let modified_scaled := scaled_row.set fp.2 new_value
        let new_pred := predict modified_scaled
        if new_pred < original_pred then
          let reduction := (original_pred - new_pred) / original_pred
          let change_vector :=
            List.zipWith (fun a b => a - b) modified_scaled scaled_row
          let distance := l2norm change_vector
          some ⟨fp.1, current_value, new_value, delta, new_pred,
                reduction * 100, distance⟩
        else none

/-- A parsed `POST /explain/cf` request body: the `input` field (`none` when
the key is missing) and the optional `target` field. -/
structure CFReq where
  input : Option RawInput
  target : Option ℚ

/-- The success payload of `POST /explain/cf`. -/
structure CFOk where
  original_prediction : ℚ
  target_prediction : ℚ
  candidates : List Candidate
deriving DecidableEq, Repr

/-- `explain_counterfactual` (`POST /explain/cf`): predict the original,
form the informational target, generate candidates over the actionable
features, sort by (reduction descending, distance ascending), return the
top 5. -/
def explain_counterfactual (ctx : Ctx) (draw : DrawF) (body : CFReq) :
    Except HttpError CFOk :=
  match ctx.model, ctx.scaler, ctx.feature_columns with
  | some predict, some scalerF, some feature_columns =>
    match body.input with
    | none => .error ⟨400, missing_input_msg⟩
    | some input_data =>
      let target_factor := body.target.getD (4/5)
      let scaled_data := scaledRow ctx scalerF input_data
      let original_pred := predict scaled_data
      let target_pred := original_pred * target_factor
      let mapping := feature_mapping feature_columns
      match generate_background_data ctx draw 100 with
      | .error e => .error ⟨400, e⟩
      | .ok none => .error ⟨500, "Failed to generate background data"⟩
      | .ok (some background) =>
        let candidates :=
          cf_candidates predict background scaled_data mapping original_pred
        let candidates := candidates.mergeSort cf_le
        let top_candidates := candidates.take 5
        .ok ⟨original_pred, target_pred, top_candidates⟩
  | _, _, _ => .error ⟨500, "Model not loaded"⟩

/-! ## Declared orders of the ranked outputs (as `Prop` relations) -/

/-- The documented composite order of counterfactual candidates:
`reduction_percent` non-increasing, ties broken by `distance`
non-decreasing. -/
def cfKeyLE (a b : Candidate) : Prop :=
  b.reduction_percent < a.reduction_percent
    ∨ (a.reduction_percent = b.reduction_percent ∧ a.distance ≤ b.distance)

/-! ## Concrete fixtures used by witnesses

A small working deployment: two-feature schema, identity scaler, a linear
model summing the row, and a preprocessor aligning the raw dict to the
schema.  The draws alternate between 1 and 3, so the background column for
`Age` has mean 2 and standard deviation 1 exactly. -/

/-- Witness preprocessor: align the raw dict to the schema
`["Age", "Extra"]`, defaulting the extra feature to 1. -/
def wPre : RawInput → List ℚ := fun r => [(r.lookup "Age").getD 0, 1]

/-- Witness context: everything loaded and functional. -/
def wCtx : Ctx :=
  { model := some fun row => row.sum
    scaler := some fun m => m
    feature_columns := some ["Age", "Extra"]
    preprocess := wPre
    shap_available := true
    lime_available := true
    has_coef := true
    linear_explainer_ok := true
    shapEx := ⟨fun r => r, fun m => m⟩
    limeExplain := fun _ row => ([("0", row.getD 0 0)], 1)
    save_ok := true }

/-- Witness draws: alternate 1 and 3 by sample parity. -/
def wDraw : DrawF := fun i _ => if i % 2 = 0 then 1 else 3

/-- Witness request input. -/
def wInput : RawInput := [("Age", 2)]

/-- The counterfactual response `explain_counterfactual` produces on the
witness fixtures. -/
def wCFRes : CFOk :=
  ⟨3, 12/5,
   [⟨"Age", 2, 0, -2, 1, 200/3, 2⟩,
    ⟨"Age", 2, 1, -1, 2, 100/3, 1⟩,
    ⟨"Age", 2, 3/2, -1/2, 5/2, 50/3, 1/2⟩]⟩

/-- The local-explanation response on the witness fixtures (the success
payload as computed; used to discharge `ok`-shaped hypotheses). -/
def wLocalRes : LocalOk :=
  match explain_local wCtx wDraw (some wInput) with
  | .ok l => l
  | .error _ => ⟨0, [], ""⟩

/-- The global-explanation response on the witness fixtures starting from an
absent cache file. -/
def wGlobalRes : GlobalPayload :=
  match explain_global wCtx wDraw wDraw none 0 with
  | (.ok g, _) => g
  | (.error _, _) => ⟨[], "", 0, false⟩

/-- A cached payload fixture. -/
def wPayload : GlobalPayload :=
  ⟨[⟨"Age", 1⟩, ⟨"Extra", 1/2⟩], "LinearExplainer", 100, false⟩

/-- A valid cache file fixture, saved at time 1000. -/
def wCacheHit : CacheState := some (some ⟨.parsed 1000, some wPayload⟩)

/-- The witness context with the scaler missing. -/
def wCtxNoScaler : Ctx := { wCtx with scaler := none }

/-- The witness context with the schema missing. -/
def wCtxNoSchema : Ctx := { wCtx with feature_columns := none }

/-- The witness context with an empty schema. -/
def wCtxEmptySchema : Ctx := { wCtx with feature_columns := some [] }

/-- The witness context with a non-empty schema containing none of the
hard-coded ("known") feature names. -/
def wCtxUnknownSchema : Ctx := { wCtx with feature_columns := some ["Extra"] }

/-- The witness context with SHAP unavailable and no linear coefficients. -/
def wCtxNoShap : Ctx :=
  { wCtx with shap_available := false, has_coef := false,
              linear_explainer_ok := false }

/-- The cache state left behind by a first `explain_global` call at time 0
starting from an absent cache file. -/
def wCacheAfterFirst : CacheState := some (some ⟨.parsed 0, some wGlobalRes⟩)

/-- The background matrix `generate_background_data` produces on the witness
fixtures for `n_samples = 3`. -/
def wMat : List (List ℚ) := [[1, 1], [3, 1], [1, 1]]

deriving instance DecidableEq for Except

/-! ## Helper lemmas -/

theorem abs_eq_natAbs_div_den (d : ℚ) :
    ((d.num.natAbs : ℚ) / (d.den : ℚ)) = |d| := by
  conv_rhs => rw [← Rat.num_div_den d]
  rw [abs_div]
  congr 1
  · rw [Int.cast_natAbs, Int.cast_abs]
  · rw [abs_of_nonneg (by positivity)]

theorem ratSqrt_mul_self (d : ℚ) : ratSqrt (d * d) = |d| := by
  unfold ratSqrt
  rw [Rat.mul_self_num, Rat.mul_self_den]
  have hnum : (d.num * d.num).toNat = d.num.natAbs * d.num.natAbs := by
    rw [← Int.natAbs_mul_self]
    exact Int.toNat_ofNat _
  rw [hnum, Nat.sqrt_eq, Nat.sqrt_eq]
  exact abs_eq_natAbs_div_den d

theorem sumSq_zipWith_sub_self (xs : List ℚ) :
    sumSq (List.zipWith (fun a b => a - b) xs xs) = 0 := by
  induction xs with
  | nil => rfl
  | cons x xs ih =>
    simp only [List.zipWith_cons_cons, sumSq, List.map_cons, List.sum_cons]
    simp only [sumSq] at ih
    rw [ih, sub_self]
    ring

theorem sumSq_set (row : List ℚ) (i : ℕ) (h : i < row.length) (v : ℚ) :
    sumSq (List.zipWith (fun a b => a - b) (row.set i v) row)
      = (v - row.getD i 0) * (v - row.getD i 0) := by
  induction row generalizing i with
  | nil => simp at h
  | cons x xs ih =>
    cases i with
    | zero =>
      simp only [List.set_cons_zero, List.zipWith_cons_cons, sumSq,
        List.map_cons, List.sum_cons, List.getD_cons_zero]
      have := sumSq_zipWith_sub_self xs
      simp only [sumSq] at this
      rw [this]
      ring
    | succ j =>
      simp only [List.set_cons_succ, List.zipWith_cons_cons, sumSq,
        List.map_cons, List.sum_cons, List.getD_cons_succ]
      have hj : j < xs.length := by simpa using h
      have := ih j hj
      simp only [sumSq] at this
      rw [this, sub_self]
      ring

theorem l2norm_single_change (row : List ℚ) (i : ℕ) (h : i < row.length)
    (d : ℚ) :
    l2norm (List.zipWith (fun a b => a - b)
      (row.set i (row.getD i 0 + d)) row) = |d| := by
  unfold l2norm
  rw [sumSq_set row i h, add_sub_cancel_left, ratSqrt_mul_self]

theorem cf_le_iff (a b : Candidate) : cf_le a b = true ↔ cfKeyLE a b := by
  simp [cf_le, cfKeyLE]

theorem cf_le_trans (a b c : Candidate) :
    cf_le a b → cf_le b c → cf_le a c := by
  simp only [cf_le_iff, cfKeyLE]
  rintro (h₁ | ⟨h₁e, h₁d⟩) (h₂ | ⟨h₂e, h₂d⟩)
  · exact Or.inl (h₂.trans h₁)
  · exact Or.inl (h₂e ▸ h₁)
  · exact Or.inl (h₁e ▸ h₂)
  · exact Or.inr ⟨h₁e.trans h₂e, h₁d.trans h₂d⟩

theorem cf_le_total (a b : Candidate) : cf_le a b || cf_le b a := by
  simp only [Bool.or_eq_true, cf_le_iff, cfKeyLE]
  rcases lt_trichotomy a.reduction_percent b.reduction_percent with h | h | h
  · exact Or.inr (Or.inl h)
  · rcases le_total a.distance b.distance with hd | hd
    · exact Or.inl (Or.inr ⟨h, hd⟩)
    · exact Or.inr (Or.inr ⟨h.symm, hd⟩)
  · exact Or.inl (Or.inl h)

theorem fi_le_trans (a b c : FIItem) : fi_le a b → fi_le b c → fi_le a c := by
  simp only [fi_le, decide_eq_true_eq]
  exact fun h₁ h₂ => h₂.trans h₁

theorem fi_le_total (a b : FIItem) : fi_le a b || fi_le b a := by
  simp only [fi_le, Bool.or_eq_true, decide_eq_true_eq]
  exact le_total b.mean_abs_shap a.mean_abs_shap

theorem contrib_le_trans (a b c : Contribution) :
    contrib_le a b → contrib_le b c → contrib_le a c := by
  simp only [contrib_le, decide_eq_true_eq]
  exact fun h₁ h₂ => h₂.trans h₁

theorem contrib_le_total (a b : Contribution) :
    contrib_le a b || contrib_le b a := by
  simp only [contrib_le, Bool.or_eq_true, decide_eq_true_eq]
  exact le_total |b.shap| |a.shap|

theorem chain'_mergeSort_cf (l : List Candidate) :
    List.Chain' cfKeyLE (l.mergeSort cf_le) :=
  ((List.sorted_mergeSort cf_le_trans cf_le_total l).imp
    fun h => (cf_le_iff _ _).1 h).chain'

theorem chain'_take_mergeSort_cf (l : List Candidate) (n : ℕ) :
    List.Chain' cfKeyLE ((l.mergeSort cf_le).take n) :=
  (((List.sorted_mergeSort cf_le_trans cf_le_total l).sublist
    (List.take_sublist n _)).imp fun h => (cf_le_iff _ _).1 h).chain'

theorem chain'_mergeSort_fi (l : List FIItem) :
    List.Chain' (fun a b => b.mean_abs_shap ≤ a.mean_abs_shap)
      (l.mergeSort fi_le) :=
  ((List.sorted_mergeSort fi_le_trans fi_le_total l).imp
    fun h => by simpa [fi_le] using h).chain'

theorem chain'_mergeSort_contrib (l : List Contribution) :
    List.Chain' (fun a b => |b.shap| ≤ |a.shap|) (l.mergeSort contrib_le) :=
  ((List.sorted_mergeSort contrib_le_trans contrib_le_total l).imp
    fun h => by simpa [contrib_le] using h).chain'

/-- Every element of `cf_candidates` was appended by the inner loop: its new
prediction is strictly below the original, its `reduction_percent` is exactly
the recomputed formula, and its `distance` is the Euclidean norm of the full
single-feature change vector, which collapses to `|change|`. -/
theorem cf_candidates_mem_spec (predict : List ℚ → ℚ)
    (background : List (List ℚ)) (row : List ℚ)
    (mapping : List (String × ℕ)) (orig : ℚ) (c : Candidate)
    (hc : c ∈ cf_candidates predict background row mapping orig) :
    c.new_prediction < orig
    ∧ c.reduction_percent = (orig - c.new_prediction) / orig * 100
    ∧ c.distance = |c.change|
    ∧ ∃ i, i < row.length ∧ c.original_value = row.getD i 0
        ∧ c.suggested_value = c.original_value + c.change
        ∧ c.new_prediction = predict (row.set i c.suggested_value)
        ∧ c.distance = l2norm (List.zipWith (fun a b => a - b)
            (row.set i c.suggested_value) row) := by
  unfold cf_candidates at hc
  rw [List.mem_flatMap] at hc
  obtain ⟨fp, _, hmem⟩ := hc
  by_cases hlen : row.length ≤ fp.2
  · simp [hlen] at hmem
  · rw [if_neg hlen] at hmem
    rw [List.mem_filterMap] at hmem
    obtain ⟨mult, _, heq⟩ := hmem
    dsimp only at heq
    by_cases hpred :
        predict (row.set fp.2 (row.getD fp.2 0
          + mult * npStd (background.map fun r => r.getD fp.2 0))) < orig
    · rw [if_pos hpred] at heq
      obtain rfl := Option.some.inj heq
      have hi : fp.2 < row.length := by omega
      refine ⟨hpred, rfl, ?_, fp.2, hi, rfl, rfl, rfl, rfl⟩
      exact l2norm_single_change row fp.2 hi
        (mult * npStd (background.map fun r => r.getD fp.2 0))
    · rw [if_neg hpred] at heq
      exact absurd heq (by simp)

/-- `get_shap_explainer` can only succeed with the context's explainer. -/
theorem get_shap_explainer_eq (ctx : Ctx) (draw : DrawF) (ex : ShapEx)
    (h : get_shap_explainer ctx draw = .ok (some ex)) : ex = ctx.shapEx := by
  unfold get_shap_explainer at h
  split at h
  · exact absurd h (by simp)
  · split at h
    · split at h
      · split at h
        · exact absurd h (by simp)
        · split at h
          · exact Option.some.inj (Except.ok.inj h) |>.symm
          · exact absurd h (by simp)
        · exact absurd h (by simp)
      · exact absurd h (by simp)
    · exact absurd h (by simp)

/-- Inversion of a successful, cache-missing `explain_global` call: the
returned payload is the freshly computed, sorted explanation, and the cache
was updated by the best-effort save. -/
theorem explain_global_ok_inv (ctx : Ctx) (d1 d2 : DrawF)
    (cache : CacheState) (now : ℤ) (g : GlobalPayload) (st : CacheState)
    (hmiss : load_cached_global_explanation cache now = none)
    (h : explain_global ctx d1 d2 cache now = (.ok g, st)) :
    ∃ m s cols background, ctx.model = some m ∧ ctx.scaler = some s
      ∧ ctx.feature_columns = some cols
      ∧ generate_background_data ctx d2 100 = .ok (some background)
      ∧ g = ⟨((List.range cols.length).map fun i =>
            FIItem.mk (cols.getD i "")
              (colMeanAbs (ctx.shapEx.mat background) i)).mergeSort fi_le,
          "LinearExplainer", background.length, false⟩
      ∧ st = save_cached_global_explanation cache now g ctx.save_ok := by
  unfold explain_global at h
  split at h
  case h_2 => exact absurd (congrArg Prod.fst h) (by simp)
  case h_1 m s cols hm hs hf =>
    rw [hmiss] at h
    split at h
    next cached hcc => exact absurd hcc.symm (by simp)
    next =>
      split at h
      next => exact absurd (congrArg Prod.fst h) (by simp)
      next hshap =>
        split at h
        next e hexm => exact absurd (congrArg Prod.fst h) (by simp)
        next hexm => exact absurd (congrArg Prod.fst h) (by simp)
        next ex hexm =>
          split at h
          next e hbg => exact absurd (congrArg Prod.fst h) (by simp)
          next hbg => exact absurd (congrArg Prod.fst h) (by simp)
          next background hbg =>
            injection h with hg hst
            obtain rfl := Except.ok.inj hg
            refine ⟨m, s, cols, background, hm, hs, hf, hbg, ?_, hst.symm⟩
            rw [get_shap_explainer_eq ctx d1 ex hexm]

/-- Inversion of a successful `explain_counterfactual` call. -/
theorem explain_counterfactual_ok_inv (ctx : Ctx) (draw : DrawF) (body : CFReq)
    (r : CFOk) (h : explain_counterfactual ctx draw body = .ok r) :
    ∃ predict scalerF cols inp background,
      ctx.model = some predict ∧ ctx.scaler = some scalerF
      ∧ ctx.feature_columns = some cols ∧ body.input = some inp
      ∧ generate_background_data ctx draw 100 = .ok (some background)
      ∧ r = ⟨predict (scaledRow ctx scalerF inp),
             predict (scaledRow ctx scalerF inp) * body.target.getD (4/5),
             ((cf_candidates predict background (scaledRow ctx scalerF inp)
                 (feature_mapping cols)
                 (predict (scaledRow ctx scalerF inp))).mergeSort cf_le).take
               5⟩ := by
  unfold explain_counterfactual at h
  split at h
  case h_2 => exact absurd h (by simp)
  case h_1 predict scalerF cols hm hs hf =>
    split at h
    next hinp => exact absurd h (by simp)
    next inp hinp =>
      split at h
      next e hbg => exact absurd h (by simp)
      next hbg => exact absurd h (by simp)
      next background hbg =>
        obtain rfl := Except.ok.inj h
        exact ⟨predict, scalerF, cols, inp, background, hm, hs, hf, hinp,
          hbg, rfl⟩

/-- C1: every candidate returned by `POST /explain/cf` has `new_prediction`
strictly below `original_prediction`, its `reduction_percent` recomputes
exactly to `(original − new)/original × 100` (rational arithmetic is exact,
subsuming the floating tolerance), and at most 5 candidates are returned. -/
theorem C1_counterfactual_soundness (ctx : Ctx) (draw : DrawF) (body : CFReq)
    (r : CFOk) (h : explain_counterfactual ctx draw body = .ok r) :
    r.candidates.length ≤ 5
    ∧ ∀ c ∈ r.candidates,
        c.new_prediction < r.original_prediction
        ∧ c.reduction_percent
            = (r.original_prediction - c.new_prediction)
              / r.original_prediction * 100 := by
  obtain ⟨predict, scalerF, cols, inp, background, hm, hs, hf, hinp, hbg,
    rfl⟩ := explain_counterfactual_ok_inv ctx draw body r h
  constructor
  · exact List.length_take_le 5 _
  · intro c hc
    have hc' : c ∈ cf_candidates predict background
        (scaledRow ctx scalerF inp) (feature_mapping cols)
        (predict (scaledRow ctx scalerF inp)) := by
      have := List.mem_of_mem_take hc
      rwa [List.mem_mergeSort] at this
    obtain ⟨hlt, hred, -⟩ := cf_candidates_mem_spec _ _ _ _ _ c hc'
    exact ⟨hlt, hred⟩

set_option maxRecDepth 100000 in
/-- C1 witness: on the concrete fixtures the endpoint returns three
candidates; the soundness theorem applies to them. -/
theorem C1_witness :
    explain_counterfactual wCtx wDraw ⟨some wInput, some (4/5)⟩ = .ok wCFRes
    ∧ wCFRes.candidates.length ≤ 5
    ∧ ∀ c ∈ wCFRes.candidates,
        c.new_prediction < wCFRes.original_prediction
        ∧ c.reduction_percent
            = (wCFRes.original_prediction - c.new_prediction)
              / wCFRes.original_prediction * 100 := by
  have h : explain_counterfactual wCtx wDraw ⟨some wInput, some (4/5)⟩
      = .ok wCFRes := by with_unfolding_all decide
  exact ⟨h, C1_counterfactual_soundness wCtx wDraw _ wCFRes h⟩

/-- C4: the target factor of a counterfactual request influences only the
reported `target_prediction` (which is `original_prediction × factor`);
`original_prediction` and the candidate list are identical across any two
requests differing only in the factor, and the factor never filters or stops
the search. -/
theorem C4_target_informational (ctx : Ctx) (draw : DrawF) (inp : RawInput) :
    (∃ e, ∀ t : ℚ,
        explain_counterfactual ctx draw ⟨some inp, some t⟩ = .error e)
    ∨ (∃ orig cands, ∀ t : ℚ,
        explain_counterfactual ctx draw ⟨some inp, some t⟩
          = .ok ⟨orig, orig * t, cands⟩) := by
  unfold explain_counterfactual
  rcases hm : ctx.model with - | predict
  · exact Or.inl ⟨⟨500, "Model not loaded"⟩, fun t => by simp⟩
  rcases hs : ctx.scaler with - | scalerF
  · exact Or.inl ⟨⟨500, "Model not loaded"⟩, fun t => by simp⟩
  rcases hf : ctx.feature_columns with - | cols
  · exact Or.inl ⟨⟨500, "Model not loaded"⟩, fun t => by simp⟩
  rcases hbg : generate_background_data ctx draw 100 with e | - | background
  · exact Or.inl ⟨⟨400, e⟩, fun t => by simp [hbg]⟩
  · exact Or.inl ⟨⟨500, "Failed to generate background data"⟩, fun t => by
      simp [hbg]⟩
  · exact Or.inr ⟨predict (scaledRow ctx scalerF inp),
      ((cf_candidates predict background (scaledRow ctx scalerF inp)
          (feature_mapping cols)
          (predict (scaledRow ctx scalerF inp))).mergeSort cf_le).take 5,
      fun t => by simp [hbg]⟩

/-- C5: each accepted candidate's reported `distance` is the Euclidean norm
of the full change between the modified and original scaled vectors, and —
exactly one feature being perturbed — it equals `|change|` in scaled-feature
units. -/
theorem C5_distance_is_delta (ctx : Ctx) (draw : DrawF) (body : CFReq)
    (r : CFOk) (scalerF : List (List ℚ) → List (List ℚ)) (inp : RawInput)
    (hs : ctx.scaler = some scalerF) (hinp : body.input = some inp)
    (h : explain_counterfactual ctx draw body = .ok r) :
    ∀ c ∈ r.candidates,
      c.distance = |c.change|
      ∧ ∃ i, i < (scaledRow ctx scalerF inp).length
          ∧ c.distance = l2norm (List.zipWith (fun a b => a - b)
              ((scaledRow ctx scalerF inp).set i c.suggested_value)
              (scaledRow ctx scalerF inp)) := by
  obtain ⟨predict, scalerF', cols, inp', background, hm, hs', hf, hinp', hbg,
    rfl⟩ := explain_counterfactual_ok_inv ctx draw body r h
  obtain rfl : scalerF = scalerF' := Option.some.inj (hs ▸ hs')
  obtain rfl : inp = inp' := Option.some.inj (hinp ▸ hinp')
  intro c hc
  have hc' : c ∈ cf_candidates predict background
      (scaledRow ctx scalerF inp) (feature_mapping cols)
      (predict (scaledRow ctx scalerF inp)) := by
    have := List.mem_of_mem_take hc
    rwa [List.mem_mergeSort] at this
  obtain ⟨-, -, hdist, i, hi, -, -, -, hnorm⟩ :=
    cf_candidates_mem_spec _ _ _ _ _ c hc'
  exact ⟨hdist, i, hi, hnorm⟩

set_option maxRecDepth 100000 in
/-- C5 witness: the theorem applied to the concrete counterfactual call. -/
theorem C5_witness :
    explain_counterfactual wCtx wDraw ⟨some wInput, some (4/5)⟩ = .ok wCFRes
    ∧ ∀ c ∈ wCFRes.candidates,
        c.distance = |c.change|
        ∧ ∃ i, i < (scaledRow wCtx (fun m => m) wInput).length
            ∧ c.distance = l2norm (List.zipWith (fun a b => a - b)
                ((scaledRow wCtx (fun m => m) wInput).set i
                  c.suggested_value)
                (scaledRow wCtx (fun m => m) wInput)) := by
  have h : explain_counterfactual wCtx wDraw ⟨some wInput, some (4/5)⟩
      = .ok wCFRes := by with_unfolding_all decide
  exact ⟨h, C5_distance_is_delta wCtx wDraw _ wCFRes _ wInput rfl rfl h⟩

/-- Inversion of a successful `explain_local` call: the returned
contributions list is the stable sort (by absolute SHAP value, descending)
of the per-feature pairing. -/
theorem explain_local_ok_inv (ctx : Ctx) (draw : DrawF)
    (body : Option RawInput) (l : LocalOk)
    (h : explain_local ctx draw body = .ok l) :
    ∃ base : List Contribution, l.contributions = base.mergeSort contrib_le := by
  unfold explain_local at h
  split at h
  case h_2 => exact absurd h (by simp)
  case h_1 predict scalerF cols hm hs hf =>
    split at h
    next hinp => exact absurd h (by simp)
    next inp hinp =>
      split at h
      next => exact absurd h (by simp)
      next hshap =>
        split at h
        next e hexm => exact absurd h (by simp)
        next hexm => exact absurd h (by simp)
        next ex hexm =>
          obtain rfl := Except.ok.inj h
          exact ⟨_, rfl⟩

/-- C3: every ranked output respects its declared sort order between
consecutive entries: freshly computed global `feature_importance` is
non-increasing in `mean_abs_shap`, local `contributions` are non-increasing
in `|shap|`, and counterfactual `candidates` follow the composite order
(`reduction_percent` descending, ties by `distance` ascending).  The global
conjunct is stated for cache-missing calls — a cache hit replays a
previously computed (hence previously sorted) payload verbatim. -/
theorem C3_monotonic_ranking (ctx₁ : Ctx) (d1 d2 : DrawF)
    (cache : CacheState) (now : ℤ) (g : GlobalPayload) (st : CacheState)
    (ctx₂ : Ctx) (d3 : DrawF) (body₂ : Option RawInput) (l : LocalOk)
    (ctx₃ : Ctx) (d4 : DrawF) (body₃ : CFReq) (r : CFOk) :
    (load_cached_global_explanation cache now = none →
      explain_global ctx₁ d1 d2 cache now = (.ok g, st) →
      g.feature_importance.Chain' fun a b => b.mean_abs_shap ≤ a.mean_abs_shap)
    ∧ (explain_local ctx₂ d3 body₂ = .ok l →
        l.contributions.Chain' fun a b => |b.shap| ≤ |a.shap|)
    ∧ (explain_counterfactual ctx₃ d4 body₃ = .ok r →
        r.candidates.Chain' cfKeyLE) := by
  refine ⟨fun hmiss h => ?_, fun h => ?_, fun h => ?_⟩
  · obtain ⟨m, s, cols, background, hm, hs, hf, hbg, rfl, hst⟩ :=
      explain_global_ok_inv ctx₁ d1 d2 cache now g st hmiss h
    exact chain'_mergeSort_fi _
  · obtain ⟨base, hbase⟩ := explain_local_ok_inv ctx₂ d3 body₂ l h
    rw [hbase]
    exact chain'_mergeSort_contrib base
  · obtain ⟨predict, scalerF, cols, inp, background, hm, hs, hf, hinp, hbg,
      rfl⟩ := explain_counterfactual_ok_inv ctx₃ d4 body₃ r h
    exact chain'_take_mergeSort_cf _ 5

set_option maxRecDepth 1000000 in
/-- C3 witness: the three orderings on the concrete fixture responses. -/
theorem C3_witness :
    List.Chain' (fun a b => b.mean_abs_shap ≤ a.mean_abs_shap)
      wGlobalRes.feature_importance
    ∧ List.Chain' (fun a b => |b.shap| ≤ |a.shap|) wLocalRes.contributions
    ∧ List.Chain' cfKeyLE wCFRes.candidates := by
  have H := C3_monotonic_ranking wCtx wDraw wDraw none 0 wGlobalRes
    wCacheAfterFirst wCtx wDraw (some wInput) wLocalRes wCtx wDraw
    ⟨some wInput, some (4/5)⟩ wCFRes
  exact ⟨H.1 (by with_unfolding_all decide) (by with_unfolding_all decide),
    H.2.1 (by with_unfolding_all decide),
    H.2.2 (by with_unfolding_all decide)⟩

/-- C2 counterexample: with a present, non-empty schema (containing a known
feature, `n_samples = 1`) but an unavailable scaler,
`generate_background_data` does **not** return the `None` ("unavailable")
signal — lines 114–120 fall through to `return background_samples`, handing
back the unscaled matrix. -/
theorem C2_counterexample :
    wCtxNoScaler.scaler = none
    ∧ generate_background_data wCtxNoScaler wDraw 1 = .ok (some [[1, 1]])
    ∧ generate_background_data wCtxNoScaler wDraw 1 ≠ .ok none :=
  ⟨rfl, by with_unfolding_all decide, by with_unfolding_all decide⟩

/-- C2 amended: `generate_background_data` returns the "unavailable" signal
(`None`), without exception, exactly when the schema is missing or empty.
With a present, non-empty schema it never returns that signal: when the
schema contains no known feature, or `n_samples = 0`, the discarded
first-row probe at line 91 (`df.iloc[0]`) raises `IndexError`, which
propagates; otherwise, when the scaler is unavailable, it returns the
*unscaled* background matrix. -/
theorem C2_amended_background_failure (ctx : Ctx) (draw : DrawF) (n : ℕ) :
    (ctx.feature_columns = none →
      generate_background_data ctx draw n = .ok none)
    ∧ (ctx.feature_columns = some [] →
        generate_background_data ctx draw n = .ok none)
    ∧ (∀ cols, ctx.feature_columns = some cols → cols ≠ [] →
        (known_features cols = [] ∨ n = 0) →
        generate_background_data ctx draw n = .error iloc_oob_msg)
    ∧ (∀ cols, ctx.feature_columns = some cols → cols ≠ [] →
        known_features cols ≠ [] → n ≠ 0 → ctx.scaler = none →
        generate_background_data ctx draw n
          = .ok (some ((List.range n).map fun i =>
              ctx.preprocess (build_sample cols (draw i))))) := by
  refine ⟨fun hf => ?_, fun hf => ?_, fun cols hf hne hraise => ?_,
    fun cols hf hne hkn hn hs => ?_⟩
  · unfold generate_background_data
    rw [hf]
  · unfold generate_background_data
    rw [hf]
    simp
  · unfold generate_background_data
    rw [hf]
    dsimp only
    rw [if_neg (by simpa [List.length_eq_zero] using hne), if_pos hraise]
  · unfold generate_background_data
    rw [hf]
    dsimp only
    rw [if_neg (by simpa [List.length_eq_zero] using hne),
      if_neg (not_or.mpr ⟨hkn, hn⟩), hs]

/-- C2 amended witness: missing schema, empty schema, a schema with no known
feature (raises), `n = 0` (raises), and a missing scaler with a working
schema (unscaled matrix), on concrete contexts. -/
theorem C2_amended_witness :
    generate_background_data wCtxNoSchema wDraw 3 = .ok none
    ∧ generate_background_data wCtxEmptySchema wDraw 3 = .ok none
    ∧ generate_background_data wCtxUnknownSchema wDraw 3 = .error iloc_oob_msg
    ∧ generate_background_data wCtxNoScaler wDraw 0 = .error iloc_oob_msg
    ∧ generate_background_data wCtxNoScaler wDraw 1 = .ok (some [[1, 1]]) := by
  refine ⟨(C2_amended_background_failure wCtxNoSchema wDraw 3).1 rfl,
    (C2_amended_background_failure wCtxEmptySchema wDraw 3).2.1 rfl,
    (C2_amended_background_failure wCtxUnknownSchema wDraw 3).2.2.1
      ["Extra"] rfl (by simp) (Or.inl (by with_unfolding_all decide)),
    (C2_amended_background_failure wCtxNoScaler wDraw 0).2.2.1
      ["Age", "Extra"] rfl (by simp) (Or.inr rfl), ?_⟩
  have h := (C2_amended_background_failure wCtxNoScaler wDraw 1).2.2.2
    ["Age", "Extra"] rfl (by simp) (by with_unfolding_all decide) (by simp)
    rfl
  rw [h]
  with_unfolding_all decide

/-- C8 counterexample: at `n = 0` (under the ordinary witness deployment)
the program raises `IndexError` at line 91 (`df.iloc[0]` on the zero-row
DataFrame) — it neither returns the "unavailable" signal nor a 0-row
matrix, so the claim's universal over `n` fails at `n = 0`. -/
theorem C8_counterexample :
    generate_background_data wCtx wDraw 0 = .error iloc_oob_msg := by
  with_unfolding_all decide

/-- C8 amended: whenever `generate_background_data` returns a matrix, it has
exactly `n` rows, each of the schema's width — given that the external
preprocessor emits schema-aligned rows and the external scaler is
shape-preserving (their documented contracts).  The second conjunct pins the
exception excluded from the original claim: with a present, non-empty
schema, `n = 0` makes the call raise `IndexError` instead of returning. -/
theorem C8_background_shape (ctx : Ctx) (draw : DrawF) (n : ℕ)
    (cols : List String) (mat : List (List ℚ))
    (hcols : ctx.feature_columns = some cols)
    (hpre : ∀ r : RawInput, (ctx.preprocess r).length = cols.length)
    (hscaler : ∀ f, ctx.scaler = some f → ∀ (m : List (List ℚ)) (L : ℕ),
      (∀ row ∈ m, row.length = L) →
      (f m).length = m.length ∧ ∀ row ∈ f m, row.length = L) :
    (generate_background_data ctx draw n = .ok (some mat) →
      mat.length = n ∧ ∀ row ∈ mat, row.length = cols.length)
    ∧ (cols ≠ [] → n = 0 →
        generate_background_data ctx draw n = .error iloc_oob_msg) := by
  constructor
  · intro h
    unfold generate_background_data at h
    rw [hcols] at h
    dsimp only at h
    by_cases hne : cols.length = 0
    · rw [if_pos hne] at h
      exact absurd h (by simp)
    · rw [if_neg hne] at h
      by_cases hraise : known_features cols = [] ∨ n = 0
      · rw [if_pos hraise] at h
        exact absurd h (by simp)
      · rw [if_neg hraise] at h
        have hrows : ∀ row ∈ (List.range n).map
            (fun i => ctx.preprocess (build_sample cols (draw i))),
            row.length = cols.length := by
          intro row hrow
          obtain ⟨i, -, rfl⟩ := List.mem_map.1 hrow
          exact hpre _
        rcases hsc : ctx.scaler with - | f
        · rw [hsc] at h
          obtain rfl := Option.some.inj (Except.ok.inj h)
          simpa using hrows
        · rw [hsc] at h
          obtain rfl := Option.some.inj (Except.ok.inj h)
          obtain ⟨hlen, hrl⟩ := hscaler f hsc _ cols.length hrows
          refine ⟨by simpa using hlen, hrl⟩
  · intro hne hn
    unfold generate_background_data
    rw [hcols]
    dsimp only
    rw [if_neg (by simpa [List.length_eq_zero] using hne),
      if_pos (Or.inr hn)]

/-- C8 witness: on the concrete fixtures, three samples give a 3×2 matrix;
the same deployment at `n = 0` raises. -/
theorem C8_witness :
    generate_background_data wCtx wDraw 3 = .ok (some wMat)
    ∧ (wMat.length = 3 ∧ ∀ row ∈ wMat, row.length = 2)
    ∧ generate_background_data wCtx wDraw 0 = .error iloc_oob_msg := by
  have h : generate_background_data wCtx wDraw 3 = .ok (some wMat) := by
    with_unfolding_all decide
  have H := C8_background_shape wCtx wDraw 3 ["Age", "Extra"] wMat rfl
    (fun r => rfl) (fun f hf m L hm => by
      obtain rfl := Option.some.inj hf
      exact ⟨rfl, hm⟩)
  have H0 := C8_background_shape wCtx wDraw 0 ["Age", "Extra"] wMat rfl
    (fun r => rfl) (fun f hf m L hm => by
      obtain rfl := Option.some.inj hf
      exact ⟨rfl, hm⟩)
  exact ⟨h, H.1 h, H0.2 (by simp) rfl⟩

/-- C6: the cache load returns a payload only when the file exists, parses,
its timestamp parses, and that timestamp is at most the TTL (7 days) before
the load-time clock; a missing file, corrupt file, unparsable timestamp, or
an expired timestamp each yield the cache-miss result `none` (the embedding
is a total function — the Python exceptions are swallowed by the
`try`/`except`, so no error escapes). -/
theorem C6_cache_load_policy (cache : CacheState) (now : ℤ)
    (p : GlobalPayload) :
    (load_cached_global_explanation cache now = some p →
      ∃ j t, cache = some (some j) ∧ j.ts ≠ .unparsable
        ∧ j.ts.effective = some t ∧ now - t ≤ cache_ttl
        ∧ j.explanation = some p)
    ∧ load_cached_global_explanation none now = none
    ∧ load_cached_global_explanation (some none) now = none
    ∧ (∀ j : CacheJson, j.ts = .unparsable →
        load_cached_global_explanation (some (some j)) now = none)
    ∧ (∀ (j : CacheJson) (t : ℤ), j.ts.effective = some t →
        cache_ttl < now - t →
        load_cached_global_explanation (some (some j)) now = none) := by
  refine ⟨fun h => ?_, rfl, rfl, fun j hj => ?_, fun j t hj ht => ?_⟩
  · unfold load_cached_global_explanation at h
    split at h
    · exact absurd h (by simp)
    · exact absurd h (by simp)
    next j =>
      split at h
      next heff => exact absurd h (by simp)
      next t heff =>
        split at h
        · exact absurd h (by simp)
        next httl =>
          refine ⟨j, t, rfl, fun habs => ?_, heff, by omega, h⟩
          rw [habs] at heff
          exact absurd heff (by simp [TsField.effective])
  · unfold load_cached_global_explanation
    dsimp only
    rw [hj]
    rfl
  · unfold load_cached_global_explanation
    dsimp only
    rw [hj]
    dsimp only
    rw [if_pos ht]

/-- C6 witness: a valid hit satisfies the only-if conditions; each failure
mode concretely misses. -/
theorem C6_witness :
    (∃ j t, wCacheHit = some (some j) ∧ j.ts ≠ .unparsable
      ∧ j.ts.effective = some t ∧ 1000 - t ≤ cache_ttl
      ∧ j.explanation = some wPayload)
    ∧ load_cached_global_explanation none 1000 = none
    ∧ load_cached_global_explanation (some none) 1000 = none
    ∧ load_cached_global_explanation
        (some (some ⟨.unparsable, some wPayload⟩)) 1000 = none
    ∧ load_cached_global_explanation
        (some (some ⟨.parsed 0, some wPayload⟩)) 10000000 = none := by
  have H := C6_cache_load_policy wCacheHit 1000 wPayload
  refine ⟨H.1 (by with_unfolding_all decide), H.2.1, H.2.2.1,
    (C6_cache_load_policy (some (some ⟨.unparsable, some wPayload⟩)) 1000
      wPayload).2.2.2.1 _ rfl,
    (C6_cache_load_policy (some (some ⟨.parsed 0, some wPayload⟩)) 10000000
      wPayload).2.2.2.2 _ 0 rfl (by with_unfolding_all decide)⟩

/-- C9: with the model components loaded (and, for `/explain/lime`, the LIME
library available — its availability check precedes the body check), a
request body lacking the `input` key yields status 400 with the exact error
body on all three POST endpoints. -/
theorem C9_missing_input (ctx : Ctx) (m : List ℚ → ℚ)
    (s : List (List ℚ) → List (List ℚ)) (cols : List String)
    (hm : ctx.model = some m) (hs : ctx.scaler = some s)
    (hf : ctx.feature_columns = some cols)
    (hl : ctx.lime_available = true) (draw : DrawF) (t : Option ℚ) :
    explain_local ctx draw none = .error ⟨400, missing_input_msg⟩
    ∧ explain_lime ctx draw none = .error ⟨400, missing_input_msg⟩
    ∧ explain_counterfactual ctx draw ⟨none, t⟩
        = .error ⟨400, missing_input_msg⟩ := by
  refine ⟨?_, ?_, ?_⟩
  · unfold explain_local
    rw [hm, hs, hf]
  · unfold explain_lime
    rw [hm, hs, hf, hl]
    rfl
  · unfold explain_counterfactual
    rw [hm, hs, hf]

/-- C9 witness: the three endpoints on the concrete context. -/
theorem C9_witness :
    explain_local wCtx wDraw none = .error ⟨400, missing_input_msg⟩
    ∧ explain_lime wCtx wDraw none = .error ⟨400, missing_input_msg⟩
    ∧ explain_counterfactual wCtx wDraw ⟨none, none⟩
        = .error ⟨400, missing_input_msg⟩ :=
  C9_missing_input wCtx _ _ _ rfl rfl rfl rfl wDraw none

/-- C10: with the model components loaded and a valid cache entry, the
global endpoint returns the cached payload re-tagged `cached=true` and
leaves the cache untouched, for *every* value of the SHAP-availability flag,
explainer-construction outcome, and background behaviour — the hit path
consults none of them. -/
theorem C10_cache_hit_short_circuit (ctx : Ctx) (d1 d2 : DrawF)
    (cache : CacheState) (now : ℤ) (p : GlobalPayload) (m : List ℚ → ℚ)
    (s : List (List ℚ) → List (List ℚ)) (cols : List String)
    (hm : ctx.model = some m) (hs : ctx.scaler = some s)
    (hf : ctx.feature_columns = some cols)
    (hhit : load_cached_global_explanation cache now = some p) :
    explain_global ctx d1 d2 cache now
      = (.ok ⟨p.feature_importance, p.explainer_type, p.sample_size, true⟩,
         cache) := by
  unfold explain_global
  rw [hm, hs, hf]
  dsimp only
  rw [hhit]

/-- C10 witness: a context with SHAP unavailable and no linear coefficients
still serves the cached payload. -/
theorem C10_witness :
    explain_global wCtxNoShap wDraw wDraw wCacheHit 1000
      = (.ok ⟨wPayload.feature_importance, wPayload.explainer_type,
             wPayload.sample_size, true⟩, wCacheHit) :=
  C10_cache_hit_short_circuit wCtxNoShap wDraw wDraw wCacheHit 1000 wPayload
    _ _ _ rfl rfl rfl (by with_unfolding_all decide)

/-- C7: a first global-explanation call that misses the cache and succeeds
persists its payload; any second call within 7 days against the resulting
cache file returns the byte-identical `feature_importance` (indeed the whole
payload) re-tagged `cached=true`. -/
theorem C7_global_idempotent (ctx : Ctx) (d1 d2 d1' d2' : DrawF)
    (cache cache₁ : CacheState) (now₁ now₂ : ℤ) (p₁ : GlobalPayload)
    (hsave : ctx.save_ok = true)
    (hmiss : load_cached_global_explanation cache now₁ = none)
    (h1 : explain_global ctx d1 d2 cache now₁ = (.ok p₁, cache₁))
    (httl : now₂ - now₁ ≤ cache_ttl) :
    (explain_global ctx d1' d2' cache₁ now₂).1
      = .ok ⟨p₁.feature_importance, p₁.explainer_type, p₁.sample_size,
             true⟩ := by
  obtain ⟨m, s, cols, background, hm, hs, hf, hbg, hp, hst⟩ :=
    explain_global_ok_inv ctx d1 d2 cache now₁ p₁ cache₁ hmiss h1
  have hc₁ : cache₁ = some (some ⟨.parsed now₁, some p₁⟩) := by
    rw [hst]
    unfold save_cached_global_explanation
    rw [hsave]
    rfl
  have hload : load_cached_global_explanation cache₁ now₂ = some p₁ := by
    rw [hc₁]
    unfold load_cached_global_explanation
    dsimp only [TsField.effective]
    rw [if_neg (by omega)]
  unfold explain_global
  rw [hm, hs, hf]
  dsimp only
  rw [hload]

set_option maxRecDepth 1000000 in
/-- C7 witness: first call at time 0 from an empty cache, second call one
day later. -/
theorem C7_witness :
    explain_global wCtx wDraw wDraw none 0 = (.ok wGlobalRes, wCacheAfterFirst)
    ∧ (explain_global wCtx wDraw wDraw wCacheAfterFirst 86400).1
        = .ok ⟨wGlobalRes.feature_importance, wGlobalRes.explainer_type,
               wGlobalRes.sample_size, true⟩ := by
  have h1 : explain_global wCtx wDraw wDraw none 0
      = (.ok wGlobalRes, wCacheAfterFirst) := by with_unfolding_all decide
  exact ⟨h1, C7_global_idempotent wCtx wDraw wDraw wDraw wDraw none
    wCacheAfterFirst 0 86400 wGlobalRes rfl rfl h1
    (by with_unfolding_all decide)⟩

end Explainability
